import Mathlib

/-!
Verification of the civic-sense scraper pipeline.

This file is a shallow embedding, in Lean 4, of the core of the
`sense-civic-scraper-local` repository: the session-scoped duplicate and
relevance filter, the topic classifier, and the time-boxed fetch-scheduling
loop.  Python strings are modelled as Lean `String`s; Python's per-character
`str.lower()` / `str.strip()` and substring test `a in b` are modelled at the
`List Char` level (over the ASCII range exercised by the program); Python
`set`s are modelled as duplicate-free insertion into `List String`; the wall
clock is an explicit natural-number field of the session state; the network
source, whose responses the scheduler consumes, is modelled as an oracle list
of round events.  The MD5 digest used for content hashing is treated as an
abstract function parameter `md5 : String → String` (its internals are
irrelevant to every property below; only determinism matters, which any Lean
function has).
-/

/-- Contiguous-sublist test on character lists: `pat` occurs starting at some
position of `l`. -/
def listOccurs (pat : List Char) : List Char → Bool
  | [] => pat.isEmpty
  | c :: cs => pat.isPrefixOf (c :: cs) || listOccurs pat cs

/-- Python's substring test `pat in s` on strings: contiguous-substring
occurrence, decided at the character-list level. -/
def occursIn (pat s : String) : Bool :=
  listOccurs pat.toList s.toList

/-- Python `str.lower()`: per-character lowercasing (ASCII range, which is
all the program's vocabulary uses). -/
def pyLower (s : String) : String :=
  String.mk (s.toList.map Char.toLower)

/-- Python `str.strip()`: drop leading and trailing whitespace. -/
def pyStrip (s : String) : String :=
  String.mk (((s.toList.dropWhile Char.isWhitespace).reverse.dropWhile
    Char.isWhitespace).reverse)

namespace RedditScraper

/-- The fixed vocabulary `all_terms` of `RedditScraper.find_matched_terms`
(`src/utils/reddit_scraper.py`, lines 128-139). -/
def all_terms : List String := [
  "civic sense", "civic responsibility", "civic awareness", "civic duty",
  "road rage", "road anger", "driver rage", "traffic rage",
  "bad driving", "rash driving", "reckless driving", "poor driving", "dangerous driving",
  "traffic violation", "traffic rules", "traffic law", "driving rules",
  "signal jump", "red light", "wrong side", "helmet violation", "drunk driving",
  "road safety", "driving safety", "traffic safety", "accident prevention",
  "lane discipline", "lane cutting", "improper lane", "lane violation",
  "honking", "unnecessary honking", "horn misuse", "noise pollution",
  "parking violation", "wrong parking", "blocking traffic", "double parking",
  "overspeeding", "speed limit", "reckless speed", "dangerous speed"]

/-- `RedditScraper.find_matched_terms`: lower-case the text, then collect, in
declaration order, every vocabulary term occurring as a substring. -/
def find_matched_terms (text : String) : List String :=
  let text_lower := pyLower text
  all_terms.filter (fun term => occursIn term text_lower)

/-- The `india_keywords` list of `_is_relevant_post_enhanced`
(`src/utils/reddit_scraper.py`, lines 228-229). -/
def india_keywords : List String := [
  "india", "indian", "delhi", "mumbai", "bangalore", "chennai",
  "hyderabad", "pune", "kolkata", "gurgaon", "noida", "ahmedabad"]

/-- The `indian_subreddits` allow-list of `_is_relevant_post_enhanced`
(`src/utils/reddit_scraper.py`, lines 232-233). -/
def indian_subreddits : List String := [
  "india", "bangalore", "mumbai", "delhi", "pune", "chennai",
  "hyderabad", "askindia", "carsindia", "indianbikes", "indiaspeaks"]

/-- A raw Reddit post as it appears in the JSON response's `data` field
(the dictionary `post_data` of `_parse_reddit_response`); `get(key, '')`
defaults are modelled by total string fields. -/
structure RawPost where
  title : String
  selftext : String
  permalink : String
  subreddit : String
  author : String
  score : Int
  num_comments : Int
  created_utc : Nat
  is_self : Bool
deriving DecidableEq, Repr

/-- `RedditScraper._is_relevant_post_enhanced` (`src/utils/reddit_scraper.py`,
lines 214-242): false on empty matched terms; true for posts from the Indian
subreddit allow-list; otherwise true iff an India keyword occurs in the
lower-cased `title + " " + selftext`. -/
def is_relevant_post_enhanced (post_data : RawPost) (matched_terms : List String) : Bool :=
  let title := pyLower post_data.title
  let selftext := pyLower post_data.selftext
  let subreddit := pyLower post_data.subreddit
  if matched_terms.isEmpty then false
  else
    let text := title ++ " " ++ selftext
    if indian_subreddits.contains subreddit then true
    else if india_keywords.any (fun keyword => occursIn keyword text) then true
    else false

end RedditScraper

namespace Config

/-- `Config.TOPIC_KEYWORDS['civic_sense']` (`src/config.py`, lines 54-57). -/
def civic_sense_keywords : List String := [
  "civic sense", "civic responsibility", "civic awareness", "civic duty",
  "public behavior", "social responsibility", "civic education", "civic consciousness"]

/-- `Config.TOPIC_KEYWORDS['road_rage']` (`src/config.py`, lines 58-62). -/
def road_rage_keywords : List String := [
  "road rage", "aggressive driving", "driver anger", "road violence",
  "traffic fight", "road anger", "driver rage", "traffic rage",
  "vehicle aggression", "driving anger"]

/-- `Config.TOPIC_KEYWORDS['bad_driving']` (`src/config.py`, lines 63-67). -/
def bad_driving_keywords : List String := [
  "bad driving", "rash driving", "reckless driving", "poor driving",
  "dangerous driving", "irresponsible driving", "negligent driving",
  "careless driving", "unsafe driving"]

/-- `Config.TOPIC_KEYWORDS['traffic_violations']` (`src/config.py`, lines 68-72). -/
def traffic_violations_keywords : List String := [
  "signal jump", "red light violation", "wrong side", "helmet violation",
  "drunk driving", "overspeeding", "lane violation", "traffic rules violation",
  "driving license violation", "vehicle registration", "traffic fine"]

/-- `Config.TOPIC_KEYWORDS['road_safety']` (`src/config.py`, lines 73-77). -/
def road_safety_keywords : List String := [
  "road safety", "accident prevention", "safe driving", "traffic rules",
  "driving laws", "safety awareness", "road discipline", "traffic discipline",
  "defensive driving", "responsible driving"]

/-- The `priority_topics` list of `Config.classify_post_topic`
(`src/config.py`, lines 150-156): keyword groups paired with their labels, in
the fixed priority order. -/
def priority_topics : List (List String × String) := [
  (civic_sense_keywords, "Civic Sense"),
  (road_rage_keywords, "Road Rage"),
  (bad_driving_keywords, "Bad Driving"),
  (traffic_violations_keywords, "Traffic Violations"),
  (road_safety_keywords, "Road Safety")]

/-- `Config.classify_post_topic` (`src/config.py`, lines 145-163): lower-case
`title + " " + content`, return the label of the first priority group with a
keyword occurring in the text, else `"General Traffic Discussion"`. -/
def classify_post_topic (title : String) (content : String) : String :=
  let text := pyLower (title ++ " " ++ content)
  match priority_topics.find? (fun group =>
      group.1.any (fun keyword => occursIn keyword text)) with
  | some group => group.2
  | none => "General Traffic Discussion"

end Config

/-- The post dictionary built by `RedditScraper._parse_reddit_response`
(`src/utils/reddit_scraper.py`, lines 181-204).  The clock-dependent
`scraped_at` / `created_time` strings are omitted: no property below depends
on them. -/
structure Post where
  title : String
  url : String
  subreddit : String
  author : String
  score : Int
  num_comments : Int
  created_utc : Nat
  selftext : String
  is_self : Bool
  source : String
  matched_terms : List String
  matched_topic : String
  preview_text : String
deriving DecidableEq, Repr

namespace RedditScraper

/-- The preview text for a post with non-empty `selftext`:
`selftext[:200].replace('\n', ' ')` — the first 200 characters with newlines
replaced by spaces (a single-character replace is a per-character map). -/
def previewOfSelftext (selftext : String) : String :=
  String.mk ((selftext.toList.take 200).map (fun c => if c = '\n' then ' ' else c))

/-- The per-child body of `RedditScraper._parse_reddit_response`
(`src/utils/reddit_scraper.py`, lines 158-206) for a child of kind `t3`:
compute the matched vocabulary terms of `title + " " + selftext`; drop the
post if none matched, or if `_is_relevant_post_enhanced` rejects it;
otherwise build the post record (with topic label and preview text). -/
def parse_child (source : String) (post_data : RawPost) : Option Post :=
  let title := post_data.title
  let selftext := post_data.selftext
  let combined_text := title ++ " " ++ selftext
  let matched_terms := find_matched_terms combined_text
  if matched_terms.isEmpty then none
  else if ¬ is_relevant_post_enhanced post_data matched_terms then none
  else some {
    title := title
    url := "https://reddit.com" ++ post_data.permalink
    subreddit := post_data.subreddit
    author := post_data.author
    score := post_data.score
    num_comments := post_data.num_comments
    created_utc := post_data.created_utc
    selftext := selftext
    is_self := post_data.is_self
    source := source
    matched_terms := matched_terms
    matched_topic := Config.classify_post_topic title selftext
    preview_text := if selftext ≠ "" then previewOfSelftext selftext else title }

/-- `RedditScraper._parse_reddit_response` over a whole children list
(children of kind other than `t3` are already absent from the input list). -/
def parse_posts (source : String) (children : List RawPost) : List Post :=
  children.filterMap (parse_child source)

end RedditScraper

namespace Scraper

/-- The `required_terms` list of `CivicSenseCommandScraper.has_required_terms`
(`src/civic_sense_scraper.py`, lines 122-133); textually identical to
`RedditScraper.all_terms` but declared separately in the source. -/
def required_terms : List String := [
  "civic sense", "civic responsibility", "civic awareness", "civic duty",
  "road rage", "road anger", "driver rage", "traffic rage",
  "bad driving", "rash driving", "reckless driving", "poor driving", "dangerous driving",
  "traffic violation", "traffic rules", "traffic law", "driving rules",
  "signal jump", "red light", "wrong side", "helmet violation", "drunk driving",
  "road safety", "driving safety", "traffic safety", "accident prevention",
  "lane discipline", "lane cutting", "improper lane", "lane violation",
  "honking", "unnecessary honking", "horn misuse", "noise pollution",
  "parking violation", "wrong parking", "blocking traffic", "double parking",
  "overspeeding", "speed limit", "reckless speed", "dangerous speed"]

/-- The `india_terms` list of `has_required_terms`
(`src/civic_sense_scraper.py`, lines 143-144). -/
def india_terms : List String := [
  "india", "indian", "delhi", "mumbai", "bangalore", "chennai",
  "hyderabad", "pune", "kolkata", "gurgaon", "noida", "ahmedabad"]

/-- The `indian_subreddits` list of `has_required_terms`
(`src/civic_sense_scraper.py`, lines 147-148). -/
def indian_subreddits : List String := [
  "india", "bangalore", "mumbai", "delhi", "pune", "chennai",
  "hyderabad", "askindia", "carsindia", "indianbikes", "indiaspeaks"]

/-- `CivicSenseCommandScraper.generate_content_hash`
(`src/civic_sense_scraper.py`, lines 79-82): digest of
`title.lower().strip() + " " + content.lower().strip()`.  The MD5 digest
itself is the abstract parameter `md5`. -/
def generate_content_hash (md5 : String → String) (title content : String) : String :=
  let combined_content := pyStrip (pyLower title) ++ " " ++ pyStrip (pyLower content)
  md5 combined_content

/-- The mutable session state of `CivicSenseCommandScraper`: the accepted-post
list, the two duplicate-index sets, the counters, the cooperative stop flag,
and an explicit wall clock (`now` / `end_time`, in seconds).  `rounds_started`
is verification instrumentation counting entries into the scheduling loop's
body. -/
structure SessionState where
  scraped_posts : List Post
  seen_urls : List String
  seen_content_hashes : List String
  duplicate_count : Nat
  filtered_count : Nat
  total_requests : Nat
  running : Bool
  now : Nat
  end_time : Nat
  rounds_started : Nat
deriving DecidableEq, Repr

/-- `CivicSenseCommandScraper.is_duplicate_post`
(`src/civic_sense_scraper.py`, lines 84-101): duplicate by URL membership in
`seen_urls`, else by content-hash membership in `seen_content_hashes`. -/
def is_duplicate_post (md5 : String → String) (s : SessionState) (post : Post) : Bool :=
  if post.url ∈ s.seen_urls then true
  else if generate_content_hash md5 post.title post.selftext ∈ s.seen_content_hashes then true
  else false

/-- `CivicSenseCommandScraper.add_post_to_tracking`
(`src/civic_sense_scraper.py`, lines 103-113): insert the URL if non-empty,
and unconditionally insert the content hash. -/
def add_post_to_tracking (md5 : String → String) (s : SessionState) (post : Post) :
    SessionState :=
  let s₁ := if post.url ≠ "" then { s with seen_urls := s.seen_urls.insert post.url } else s
  { s₁ with seen_content_hashes :=
      s₁.seen_content_hashes.insert (generate_content_hash md5 post.title post.selftext) }

/-- `CivicSenseCommandScraper.has_required_terms`
(`src/civic_sense_scraper.py`, lines 115-161): at least one required term in
the lower-cased `title + " " + selftext`; then Indian-subreddit membership, or
failing that an India keyword in the text. -/
def has_required_terms (post : Post) : Bool :=
  let title := pyLower post.title
  let content := pyLower post.selftext
  let combined_text := title ++ " " ++ content
  if ¬ required_terms.any (fun term => occursIn term combined_text) then false
  else if indian_subreddits.contains (pyLower post.subreddit) then true
  else if india_terms.any (fun term => occursIn term combined_text) then true
  else false

/-- The per-post body of the processing loop in `CivicSenseCommandScraper.run`
(`src/civic_sense_scraper.py`, lines 187-199): duplicates bump
`duplicate_count`; non-duplicates without required terms bump
`filtered_count`; the rest are appended to `scraped_posts` and entered into
the duplicate-tracking sets. -/
def process_post (md5 : String → String) (s : SessionState) (post : Post) : SessionState :=
  if is_duplicate_post md5 s post then
    { s with duplicate_count := s.duplicate_count + 1 }
  else if ¬ has_required_terms post then
    { s with filtered_count := s.filtered_count + 1 }
  else
    add_post_to_tracking md5 { s with scraped_posts := s.scraped_posts ++ [post] } post

/-- The processing loop of `run` over one round's buffered posts, in arrival
order. -/
def process_posts (md5 : String → String) (s : SessionState) (posts : List Post) :
    SessionState :=
  posts.foldl (process_post md5) s

/-- One observable outcome of a scheduling round, abstracting the network
source (`execute_search_round`, `src/civic_sense_scraper.py`, lines 219-250):
either the round completes, yielding the buffered posts, a request count and
an elapsed duration in seconds; or an exception escapes to the `try` of `run`
partway through the round; or the interrupt signal arrives during the round
(the signal handler sets `running = False`; the round still returns its
buffer, which `run` then processes before re-checking the loop condition). -/
inductive RoundEvent where
  | fetched (posts : List Post) (reqs dur : Nat)
  | raised (dur : Nat)
  | interrupted (posts : List Post) (reqs dur : Nat)
deriving DecidableEq, Repr

/-- The `while` loop of `CivicSenseCommandScraper.run`
(`src/civic_sense_scraper.py`, lines 177-211), driven by an oracle list of
round events.  Loop condition: `running and now < end_time`.  The body
captures `remaining_time = end_time - now` BEFORE the round runs (the guard
`remaining_time <= 0` on line 180 is unreachable since `now < end_time`);
after the round's posts are processed, the loop breaks when that captured
`remaining_time < 30`.  An exception exits the loop body immediately with the
state accumulated so far.  An exhausted oracle means the source produces no
further rounds. -/
def run_loop (md5 : String → String) (s : SessionState) : List RoundEvent → SessionState
  | [] => s
  | e :: es =>
    if s.running = true ∧ s.now < s.end_time then
      let remaining_time := s.end_time - s.now
      match e with
      | .fetched posts reqs dur =>
        let s₁ := process_posts md5
          { s with now := s.now + dur, total_requests := s.total_requests + reqs,
                   rounds_started := s.rounds_started + 1 } posts
        if remaining_time < 30 then s₁ else run_loop md5 s₁ es
      | .raised dur =>
        { s with now := s.now + dur, rounds_started := s.rounds_started + 1 }
      | .interrupted posts reqs dur =>
        let s₁ := process_posts md5
          { s with now := s.now + dur, total_requests := s.total_requests + reqs,
                   running := false, rounds_started := s.rounds_started + 1 } posts
        if remaining_time < 30 then s₁ else run_loop md5 s₁ es
    else s

/-- What `CivicSenseCommandScraper.finalize_scraping`
(`src/civic_sense_scraper.py`, lines 252-271) observably produces: the logged
counter summary over the accumulated state, and — only when at least one post
was collected — the generated report files and the email handoff
(`artifacts_generated`).  Wall-clock duration is omitted from the record. -/
structure SessionReport where
  posts : List Post
  post_count : Nat
  duplicates_prevented : Nat
  content_filtered : Nat
  requests_made : Nat
  artifacts_generated : Bool
deriving DecidableEq, Repr

/-- `CivicSenseCommandScraper.finalize_scraping`: summarise the counters; if
`scraped_posts` is non-empty, generate the reports and send the email,
otherwise log a warning and generate nothing. -/
def finalize_scraping (s : SessionState) : SessionReport :=
  { posts := s.scraped_posts
    post_count := s.scraped_posts.length
    duplicates_prevented := s.duplicate_count
    content_filtered := s.filtered_count
    requests_made := s.total_requests
    artifacts_generated := !s.scraped_posts.isEmpty }

/-- `CivicSenseCommandScraper.run`: the `try / except / finally` around the
scheduling loop.  The `except` clause only logs, and the `finally` clause
calls `finalize_scraping` exactly once on the state at loop exit — whichever
way the loop exited — so the session produces exactly the one report in this
list. -/
def run_session (md5 : String → String) (s : SessionState) (events : List RoundEvent) :
    List SessionReport :=
  [finalize_scraping (run_loop md5 s events)]

/-- A fresh session state as `run` sets it up at entry
(`src/civic_sense_scraper.py`, lines 163-167): clock at `start`, deadline
`start + 60 * duration_minutes`, stop flag cleared (`running = True`), all
accumulators empty. -/
def initState (start duration_minutes : Nat) : SessionState :=
  { scraped_posts := []
    seen_urls := []
    seen_content_hashes := []
    duplicate_count := 0
    filtered_count := 0
    total_requests := 0
    running := true
    now := start
    end_time := start + 60 * duration_minutes
    rounds_started := 0 }

end Scraper

namespace Main

/-- Digit-string value in the grammar of Python `int(str)`:
`digit (["_"] digit)*` — decimal digits with single underscores allowed
between digits. -/
def pyDigitsCore : List Char → Nat → Option Nat
  | [], acc => some acc
  | c :: cs, acc =>
    if c.isDigit then pyDigitsCore cs (acc * 10 + (c.toNat - 48))
    else if c = '_' then
      match cs with
      | [] => none
      | c' :: cs' =>
        if c'.isDigit then pyDigitsCore cs' (acc * 10 + (c'.toNat - 48)) else none
    else none

/-- A non-empty digit string (which must start with a digit). -/
def pyDigits : List Char → Option Nat
  | [] => none
  | c :: cs => if c.isDigit then pyDigitsCore cs (c.toNat - 48) else none

/-- Python `int(str)`: strip surrounding whitespace, then an optional sign
followed by a digit string; `none` models the `ValueError` raised on anything
else. -/
def pyInt (s : String) : Option Int :=
  match (pyStrip s).toList with
  | '+' :: cs => (pyDigits cs).map Int.ofNat
  | '-' :: cs => (pyDigits cs).map (fun n => -(n : Int))
  | cs => (pyDigits cs).map Int.ofNat

/-- The session-duration selection of `main`
(`src/civic_sense_scraper.py`, lines 502-510):
`duration = int(input(...) or "10")` — an empty input line falls back to the
string `"10"`; a `ValueError` falls back to 10; a parsed value below 1 or
above 60 falls back to 10. -/
def choose_duration (input_line : String) : Int :=
  let text := if input_line = "" then "10" else input_line
  match pyInt text with
  | none => 10
  | some duration => if duration < 1 ∨ duration > 60 then 10 else duration

end Main

namespace Scraper

/-- The DuplicateIndex invariant: every accepted record's URL (when
non-empty) is in `seen_urls`, and its normalized title+body content hash is
in `seen_content_hashes`. -/
def DupInvariant (md5 : String → String) (s : SessionState) : Prop :=
  ∀ post ∈ s.scraped_posts,
    (post.url ≠ "" → post.url ∈ s.seen_urls) ∧
    generate_content_hash md5 post.title post.selftext ∈ s.seen_content_hashes

end Scraper

/-- The off-topic candidate of the spec's scenario 9: title
`"Nice weather today"`, empty body, origin channel `"funny"`. -/
def niceRaw : RedditScraper.RawPost :=
  { title := "Nice weather today", selftext := "",
    permalink := "/r/funny/comments/xyz/nice_weather/", subreddit := "funny",
    author := "user1", score := 5, num_comments := 2, created_utc := 1700000000,
    is_self := true }

/-- An on-topic candidate with empty body from an allow-listed channel. -/
def rageRaw : RedditScraper.RawPost :=
  { title := "Terrible road rage in Bangalore today", selftext := "",
    permalink := "/r/india/comments/abc/road_rage/", subreddit := "india",
    author := "user2", score := 10, num_comments := 3, created_utc := 1700000000,
    is_self := true }

/-- The accepted record built from `rageRaw` by the parse stage. -/
def rageParsed : Post :=
  (RedditScraper.parse_child "r/india new posts" rageRaw).get (by rfl)

/-- An on-topic candidate with a non-empty body. -/
def bodyRaw : RedditScraper.RawPost :=
  { title := "Rash driving everywhere",
    selftext := "So much road rage on Indian roads these days.\nNo lane discipline at all.",
    permalink := "/r/india/comments/def/rash_driving/", subreddit := "india",
    author := "user3", score := 7, num_comments := 1, created_utc := 1700000000,
    is_self := true }

/-- The accepted record built from `bodyRaw` by the parse stage. -/
def bodyParsed : Post :=
  (RedditScraper.parse_child "r/india new posts" bodyRaw).get (by rfl)

/-- A 218-character title (vocabulary term and region token included). -/
def longTitle : String :=
  "Terrible road rage in Bangalore today " ++ String.mk (List.replicate 180 'x')

/-- An on-topic candidate whose title exceeds 200 characters and whose body
is empty. -/
def longRaw : RedditScraper.RawPost :=
  { title := longTitle, selftext := "",
    permalink := "/r/india/comments/ghi/long_rant/", subreddit := "india",
    author := "user4", score := 3, num_comments := 0, created_utc := 1700000000,
    is_self := true }

/-- A candidate from the `"bangalore"` channel whose text contains no
region-name token (the spec's region-gate example). -/
def bangaloreRaw : RedditScraper.RawPost :=
  { title := "Road rage near the signal again", selftext := "",
    permalink := "/r/bangalore/comments/jkl/signal_fight/", subreddit := "bangalore",
    author := "user5", score := 12, num_comments := 8, created_utc := 1700000000,
    is_self := true }

/-- A session state whose URL index already holds the URL of `rageParsed`. -/
def c1State : Scraper.SessionState :=
  { Scraper.initState 0 10 with seen_urls := [rageParsed.url] }


/-- C1: `is_duplicate_post` returns true iff the record's URL is non-empty
and already in `seen_urls`, or the content hash of the lower-cased, trimmed
title concatenated (with a space) with the lower-cased, trimmed body is
already in `seen_content_hashes`; the hash is a deterministic function of the
normalized title and body.  The URL-emptiness hypothesis `"" ∉ seen_urls`
holds in every state the scraper builds, because `add_post_to_tracking` only
inserts non-empty URLs. -/
theorem C1_duplicate_check :
    (∀ (md5 : String → String) (s : Scraper.SessionState) (post : Post),
        "" ∉ s.seen_urls →
        (Scraper.is_duplicate_post md5 s post = true ↔
          (post.url ≠ "" ∧ post.url ∈ s.seen_urls) ∨
            Scraper.generate_content_hash md5 post.title post.selftext ∈
              s.seen_content_hashes)) ∧
    (∀ (md5 : String → String) (t₁ c₁ t₂ c₂ : String),
        pyStrip (pyLower t₁) = pyStrip (pyLower t₂) →
        pyStrip (pyLower c₁) = pyStrip (pyLower c₂) →
        Scraper.generate_content_hash md5 t₁ c₁ =
          Scraper.generate_content_hash md5 t₂ c₂) := by
  constructor
  · intro md5 s post h
    unfold Scraper.is_duplicate_post
    by_cases hu : post.url ∈ s.seen_urls
    · have hne : post.url ≠ "" := by
        intro he
        exact h (he ▸ hu)
      simp [hu, hne]
    · by_cases hh : Scraper.generate_content_hash md5 post.title post.selftext ∈
          s.seen_content_hashes
      · simp [hu, hh]
      · simp [hu, hh]
  · intro md5 t₁ c₁ t₂ c₂ h₁ h₂
    unfold Scraper.generate_content_hash
    rw [h₁, h₂]

/-- C1 witness: a state whose URL index holds the URL of `rageParsed`, and
two title/body pairs with the same normalization. -/
theorem C1_witness :
    (Scraper.is_duplicate_post (fun h => h) c1State rageParsed = true ↔
      (rageParsed.url ≠ "" ∧ rageParsed.url ∈ c1State.seen_urls) ∨
        Scraper.generate_content_hash (fun h => h) rageParsed.title rageParsed.selftext ∈
          c1State.seen_content_hashes) ∧
    Scraper.generate_content_hash (fun h => h) "Road Rage " "" =
      Scraper.generate_content_hash (fun h => h) "road rage" " " :=
  ⟨C1_duplicate_check.1 (fun h => h) c1State rageParsed (by decide),
   C1_duplicate_check.2 (fun h => h) "Road Rage " "" "road rage" " " (by rfl) (by rfl)⟩

/-- C4: the duplicate-index invariant is preserved by every step of the
per-record pipeline: if every already-accepted record's URL (when non-empty)
is in `seen_urls` and its content hash is in `seen_content_hashes`, the same
holds immediately after processing the next candidate — in particular for a
just-accepted record, before the next candidate is evaluated. -/
theorem C4_dup_index_invariant :
    ∀ (md5 : String → String) (s : Scraper.SessionState) (post : Post),
      Scraper.DupInvariant md5 s →
      Scraper.DupInvariant md5 (Scraper.process_post md5 s post) := by
  intro md5 s post h
  unfold Scraper.DupInvariant at h ⊢
  unfold Scraper.process_post
  split
  · exact fun q hq => h q hq
  · split
    · exact fun q hq => h q hq
    · unfold Scraper.add_post_to_tracking
      by_cases hurl : post.url ≠ ""
      · simp only [if_pos hurl]
        intro q hq
        simp only [List.mem_append, List.mem_singleton] at hq
        rcases hq with hq | rfl
        · obtain ⟨h1, h2⟩ := h q hq
          exact ⟨fun hne => List.mem_insert_iff.mpr (Or.inr (h1 hne)),
                 List.mem_insert_iff.mpr (Or.inr h2)⟩
        · exact ⟨fun _ => List.mem_insert_self _ _, List.mem_insert_self _ _⟩
      · simp only [if_neg hurl]
        intro q hq
        simp only [List.mem_append, List.mem_singleton] at hq
        rcases hq with hq | rfl
        · obtain ⟨h1, h2⟩ := h q hq
          exact ⟨h1, List.mem_insert_iff.mpr (Or.inr h2)⟩
        · exact ⟨fun hne => absurd (not_not.mp hurl) hne, List.mem_insert_self _ _⟩

/-- C4 witness: the invariant holds of the empty initial state, and is
carried through the acceptance of a concrete record. -/
theorem C4_witness :
    Scraper.DupInvariant (fun h => h)
      (Scraper.process_post (fun h => h) (Scraper.initState 0 10) rageParsed) :=
  C4_dup_index_invariant (fun h => h) (Scraper.initState 0 10) rageParsed
    (by intro q hq; simp [Scraper.initState] at hq)

/-- C5: `find_matched_terms` returns the empty sequence iff no vocabulary
phrase occurs as a substring of the lower-cased input; a term is in the
result iff it is a vocabulary phrase occurring in the lower-cased input; the
result is a sublist of the vocabulary (hence in vocabulary-declared order);
and every vocabulary phrase is lower-case invariant, so matching against the
lower-cased text is exactly case-insensitive matching. -/
theorem C5_matched_terms :
    ∀ text : String,
      (RedditScraper.find_matched_terms text = [] ↔
        ∀ term ∈ RedditScraper.all_terms, occursIn term (pyLower text) = false) ∧
      (∀ term, term ∈ RedditScraper.find_matched_terms text ↔
        (term ∈ RedditScraper.all_terms ∧ occursIn term (pyLower text) = true)) ∧
      (RedditScraper.find_matched_terms text).Sublist RedditScraper.all_terms ∧
      (∀ term ∈ RedditScraper.all_terms, pyLower term = term) := by
  intro text
  refine ⟨?_, ?_, ?_, ?_⟩
  · unfold RedditScraper.find_matched_terms
    simp only [List.filter_eq_nil_iff, Bool.not_eq_true]
  · intro term
    unfold RedditScraper.find_matched_terms
    simp [List.mem_filter]
  · unfold RedditScraper.find_matched_terms
    exact List.filter_sublist _
  · decide

/-- C5 witness: the phrase `"road rage"` is found in a concrete title. -/
theorem C5_witness :
    "road rage" ∈ RedditScraper.find_matched_terms "Terrible road rage in Bangalore today" :=
  ((C5_matched_terms "Terrible road rage in Bangalore today").2.1 "road rage").mpr
    ⟨by decide, by decide⟩

/-- C6: for any record and matched-term list, the regional-relevance gate is
true iff the matched terms are non-empty and either the origin channel
(lower-cased) is in the fixed Indian-subreddit allow-list — in which case the
gate is true regardless of the text — or some region-name token occurs in the
lower-cased `title + " " + body`; in particular it is false whenever the
matched terms are empty. -/
theorem C6_regional_gate :
    ∀ (post_data : RedditScraper.RawPost) (matched_terms : List String),
      RedditScraper.is_relevant_post_enhanced post_data matched_terms = true ↔
        (matched_terms ≠ [] ∧
          (pyLower post_data.subreddit ∈ RedditScraper.indian_subreddits ∨
            ∃ keyword ∈ RedditScraper.india_keywords,
              occursIn keyword (pyLower post_data.title ++ " " ++ pyLower post_data.selftext)
                = true)) := by
  intro post_data matched_terms
  unfold RedditScraper.is_relevant_post_enhanced
  by_cases hm : matched_terms.isEmpty
  · simp [hm, List.isEmpty_iff.mp hm]
  · have hne : matched_terms ≠ [] := by
      simpa [List.isEmpty_iff] using hm
    by_cases hc : pyLower post_data.subreddit ∈ RedditScraper.indian_subreddits
    · simp [hm, hc, hne, List.contains, List.elem_iff]
    · have hc' : RedditScraper.indian_subreddits.contains (pyLower post_data.subreddit)
          = false := by
        simpa [List.contains, List.elem_iff] using hc
      by_cases ha : RedditScraper.india_keywords.any (fun keyword =>
          occursIn keyword (pyLower post_data.title ++ " " ++ pyLower post_data.selftext))
      · simp only [List.any_eq_true] at ha
        simp [hm, hc', hc, hne, List.any_eq_true, ha]
      · have ha' : ∀ keyword ∈ RedditScraper.india_keywords,
            occursIn keyword (pyLower post_data.title ++ " " ++ pyLower post_data.selftext)
              = false := by
          intro k hk
          by_contra hkk
          exact ha (List.any_eq_true.mpr ⟨k, hk, by simpa using hkk⟩)
        simp [hm, hc', hc, hne, List.any_eq_true, ha']

/-- C6 witness: a record from the `"bangalore"` channel with no region-name
token in its text passes the gate given non-empty matched terms. -/
theorem C6_witness :
    RedditScraper.is_relevant_post_enhanced bangaloreRaw ["road rage"] = true :=
  (C6_regional_gate bangaloreRaw ["road rage"]).mpr ⟨by decide, Or.inl (by decide)⟩

/-- C9: for every pair of input strings, `classify_post_topic` returns one of
exactly the six labels: the five priority-group labels or the default
`"General Traffic Discussion"`. -/
theorem C9_classify_labels :
    ∀ title content : String,
      Config.classify_post_topic title content ∈
        (["Civic Sense", "Road Rage", "Bad Driving", "Traffic Violations", "Road Safety",
          "General Traffic Discussion"] : List String) := by
  intro title content
  simp only [Config.classify_post_topic]
  split
  · next group hfind =>
    have hg := List.mem_of_find?_eq_some hfind
    fin_cases hg <;> simp
  · simp

/-- C9 witness: the classifier applied at a concrete title. -/
theorem C9_witness :
    Config.classify_post_topic "Terrible road rage in Bangalore today" "" ∈
      (["Civic Sense", "Road Rage", "Bad Driving", "Traffic Violations", "Road Safety",
        "General Traffic Discussion"] : List String) :=
  C9_classify_labels "Terrible road rage in Bangalore today" ""

/-- C10: the session duration used by the entry point is the parsed integer
of the input line when that parse succeeds and the value lies in 1..60
inclusive; it is 10 whenever the parse fails (including the empty line, which
falls back to the literal `"10"`) or the parsed value lies outside 1..60. -/
theorem C10_duration_selection :
    ∀ input_line : String,
      (∀ d : Int,
        Main.pyInt (if input_line = "" then "10" else input_line) = some d →
        Main.choose_duration input_line = if 1 ≤ d ∧ d ≤ 60 then d else 10) ∧
      (Main.pyInt (if input_line = "" then "10" else input_line) = none →
        Main.choose_duration input_line = 10) := by
  intro input_line
  constructor
  · intro d hd
    simp only [Main.choose_duration, hd]
    split_ifs <;> omega
  · intro hnone
    simp only [Main.choose_duration, hnone]

/-- C10 witness: input `"25"` parses to 25, which is in range and is used;
the conclusion's range test evaluates away. -/
theorem C10_witness : Main.choose_duration "25" = 25 := by
  have h := (C10_duration_selection "25").1 25 (by rfl)
  norm_num at h
  exact h

set_option maxRecDepth 4096 in
/-- C2 counterexample: the record titled `"Nice weather today"` with empty
body and origin channel `"funny"` has zero matched vocabulary terms, yet
running it through the pipeline (parse stage followed by the orchestrator's
per-record loop) leaves `filtered_count` at 0, not 1: the record is dropped
during response parsing and never reaches the filtered counter. -/
theorem C2_counterexample :
    ¬ ((Scraper.process_posts (fun h => h) (Scraper.initState 0 10)
        (RedditScraper.parse_posts "r/funny new posts" [niceRaw])).filtered_count = 1) := by
  decide

/-- C2 (amended): a candidate record with zero matched vocabulary terms is
excluded from the accepted set by the parse stage, and processing it through
the pipeline leaves the whole session state — in particular both the filtered
and the duplicates counters — unchanged. -/
theorem C2_zero_matched_excluded :
    ∀ (md5 : String → String) (source : String) (s : Scraper.SessionState)
      (raw : RedditScraper.RawPost),
      RedditScraper.find_matched_terms (raw.title ++ " " ++ raw.selftext) = [] →
      RedditScraper.parse_child source raw = none ∧
      Scraper.process_posts md5 s (RedditScraper.parse_posts source [raw]) = s := by
  intro md5 source s raw h
  have hp : RedditScraper.parse_child source raw = none := by
    unfold RedditScraper.parse_child
    simp [h]
  refine ⟨hp, ?_⟩
  unfold RedditScraper.parse_posts
  simp [hp, Scraper.process_posts]

/-- C2 witness: the `"Nice weather today"` record is dropped at the parse
stage and the session state is untouched. -/
theorem C2_witness :
    RedditScraper.parse_child "r/funny new posts" niceRaw = none ∧
    Scraper.process_posts (fun h => h) (Scraper.initState 0 10)
        (RedditScraper.parse_posts "r/funny new posts" [niceRaw]) =
      Scraper.initState 0 10 :=
  C2_zero_matched_excluded (fun h => h) "r/funny new posts" (Scraper.initState 0 10)
    niceRaw (by decide)

set_option maxRecDepth 16384 in
/-- C7 counterexample: the parse stage accepts a record whose title is 218
characters and whose body is empty, and gives it a `preview_text` of length
218 — more than the claimed 200-character bound. -/
theorem C7_counterexample :
    (RedditScraper.parse_child "r/india new posts" longRaw).isSome = true ∧
    200 < ((RedditScraper.parse_child "r/india new posts" longRaw).map
        (fun post => post.preview_text.length)).getD 0 := by
  constructor
  · rfl
  · decide

/-- C7 (amended): for every record accepted by the parse stage, when the
record's body is non-empty its `preview_text` is at most 200 characters; when
the body is empty its `preview_text` is the full title, which may exceed 200
characters. -/
theorem C7_preview_bound :
    ∀ (source : String) (raw : RedditScraper.RawPost) (post : Post),
      RedditScraper.parse_child source raw = some post →
      (raw.selftext ≠ "" → post.preview_text.length ≤ 200) ∧
      (raw.selftext = "" → post.preview_text = raw.title) := by
  intro source raw post h
  unfold RedditScraper.parse_child at h
  by_cases hm : (RedditScraper.find_matched_terms (raw.title ++ " " ++ raw.selftext)).isEmpty
  · simp [hm] at h
  · by_cases hr : RedditScraper.is_relevant_post_enhanced raw
        (RedditScraper.find_matched_terms (raw.title ++ " " ++ raw.selftext)) = true
    · simp only [hm, if_false, hr, not_true, Bool.false_eq_true] at h
      injection h with h
      subst h
      constructor
      · intro hs
        simp only [hs, ne_eq, not_false_iff, if_true]
        unfold RedditScraper.previewOfSelftext
        simp only [String.length, String.mk, List.length_map, List.length_take]
        omega
      · intro hs
        simp [hs]
    · simp [hm, hr] at h

/-- C7 witness: a record with a non-empty body gets a preview of at most 200
characters, and a record with an empty body gets its full title. -/
theorem C7_witness :
    bodyParsed.preview_text.length ≤ 200 ∧ rageParsed.preview_text = rageRaw.title :=
  ⟨(C7_preview_bound "r/india new posts" bodyRaw bodyParsed (by rfl)).1 (by decide),
   (C7_preview_bound "r/india new posts" rageRaw rageParsed (by rfl)).2 (by rfl)⟩

/-- Processing a single post never touches the stop flag, the clock, the
deadline, or the round counter. -/
theorem process_post_control_fields (md5 : String → String) (s : Scraper.SessionState)
    (post : Post) :
    (Scraper.process_post md5 s post).running = s.running ∧
    (Scraper.process_post md5 s post).now = s.now ∧
    (Scraper.process_post md5 s post).end_time = s.end_time ∧
    (Scraper.process_post md5 s post).rounds_started = s.rounds_started := by
  unfold Scraper.process_post Scraper.add_post_to_tracking
  split
  · exact ⟨rfl, rfl, rfl, rfl⟩
  · split
    · exact ⟨rfl, rfl, rfl, rfl⟩
    · split <;> exact ⟨rfl, rfl, rfl, rfl⟩

/-- Processing a round's buffer never touches the stop flag, the clock, the
deadline, or the round counter. -/
theorem process_posts_control_fields (posts : List Post) :
    ∀ (md5 : String → String) (s : Scraper.SessionState),
    (Scraper.process_posts md5 s posts).running = s.running ∧
    (Scraper.process_posts md5 s posts).now = s.now ∧
    (Scraper.process_posts md5 s posts).end_time = s.end_time ∧
    (Scraper.process_posts md5 s posts).rounds_started = s.rounds_started := by
  induction posts with
  | nil => exact fun md5 s => ⟨rfl, rfl, rfl, rfl⟩
  | cons p ps ih =>
    intro md5 s
    have h1 := process_post_control_fields md5 s p
    have h2 := ih md5 (Scraper.process_post md5 s p)
    have e : Scraper.process_posts md5 s (p :: ps) =
        Scraper.process_posts md5 (Scraper.process_post md5 s p) ps := rfl
    rw [e]
    exact ⟨h2.1.trans h1.1, h2.2.1.trans h1.2.1, h2.2.2.1.trans h1.2.2.1,
           h2.2.2.2.trans h1.2.2.2⟩

/-- With the stop flag cleared, the scheduling loop exits at once. -/
theorem run_loop_stopped (md5 : String → String) (s : Scraper.SessionState)
    (events : List Scraper.RoundEvent) (h : s.running = false) :
    Scraper.run_loop md5 s events = s := by
  cases events with
  | nil => rfl
  | cons e es => simp [Scraper.run_loop, h]

/-- The round counter never decreases across the scheduling loop. -/
theorem run_loop_rounds_mono (events : List Scraper.RoundEvent) :
    ∀ (md5 : String → String) (s : Scraper.SessionState),
    s.rounds_started ≤ (Scraper.run_loop md5 s events).rounds_started := by
  induction events with
  | nil => exact fun md5 s => le_refl _
  | cons e es ih =>
    intro md5 s
    by_cases hg : s.running = true ∧ s.now < s.end_time
    · cases e with
      | fetched posts reqs dur =>
        simp only [Scraper.run_loop]
        rw [if_pos hg]
        have hs₁ := (process_posts_control_fields posts md5
          { s with now := s.now + dur, total_requests := s.total_requests + reqs,
                   rounds_started := s.rounds_started + 1 }).2.2.2
        split
        · rw [hs₁]
          exact Nat.le_succ _
        · exact le_trans (le_trans (Nat.le_succ _) (le_of_eq hs₁.symm)) (ih md5 _)
      | raised dur =>
        simp only [Scraper.run_loop]
        rw [if_pos hg]
        exact Nat.le_succ _
      | interrupted posts reqs dur =>
        simp only [Scraper.run_loop]
        rw [if_pos hg]
        have hs₁ := (process_posts_control_fields posts md5
          { s with now := s.now + dur, total_requests := s.total_requests + reqs,
                   running := false, rounds_started := s.rounds_started + 1 }).2.2.2
        split
        · rw [hs₁]
          exact Nat.le_succ _
        · exact le_trans (le_trans (Nat.le_succ _) (le_of_eq hs₁.symm)) (ih md5 _)
    · simp [Scraper.run_loop, hg]

/-- Whenever the loop condition holds, starting the next round bumps the
round counter by at least one. -/
theorem run_loop_step_rounds (md5 : String → String) (s : Scraper.SessionState)
    (e : Scraper.RoundEvent) (es : List Scraper.RoundEvent)
    (h₁ : s.running = true) (h₂ : s.now < s.end_time) :
    s.rounds_started + 1 ≤ (Scraper.run_loop md5 s (e :: es)).rounds_started := by
  have hg : s.running = true ∧ s.now < s.end_time := ⟨h₁, h₂⟩
  cases e with
  | fetched posts reqs dur =>
    simp only [Scraper.run_loop]
    rw [if_pos hg]
    have hs₁ := (process_posts_control_fields posts md5
      { s with now := s.now + dur, total_requests := s.total_requests + reqs,
               rounds_started := s.rounds_started + 1 }).2.2.2
    split
    · rw [hs₁]
    · exact le_trans (le_of_eq hs₁.symm) (run_loop_rounds_mono es md5 _)
  | raised dur =>
    simp only [Scraper.run_loop]
    rw [if_pos hg]
  | interrupted posts reqs dur =>
    simp only [Scraper.run_loop]
    rw [if_pos hg]
    have hs₁ := (process_posts_control_fields posts md5
      { s with now := s.now + dur, total_requests := s.total_requests + reqs,
               running := false, rounds_started := s.rounds_started + 1 }).2.2.2
    split
    · rw [hs₁]
    · exact le_trans (le_of_eq hs₁.symm) (run_loop_rounds_mono es md5 _)

/-- An exception during a round ends the session: rounds after it never run,
so the state at loop exit is the state accumulated just before the
exception. -/
theorem run_loop_raised_trunc (pre : List Scraper.RoundEvent) :
    ∀ (md5 : String → String) (s : Scraper.SessionState) (dur : Nat)
      (rest : List Scraper.RoundEvent),
      Scraper.run_loop md5 s (pre ++ Scraper.RoundEvent.raised dur :: rest) =
      Scraper.run_loop md5 s (pre ++ [Scraper.RoundEvent.raised dur]) := by
  induction pre with
  | nil =>
    intro md5 s dur rest
    simp only [List.nil_append]
    by_cases hg : s.running = true ∧ s.now < s.end_time
    · simp only [Scraper.run_loop]
    · simp [Scraper.run_loop, hg]
  | cons e pre' ih =>
    intro md5 s dur rest
    simp only [List.cons_append]
    by_cases hg : s.running = true ∧ s.now < s.end_time
    · cases e with
      | fetched posts reqs dur' =>
        simp only [Scraper.run_loop]
        rw [if_pos hg, if_pos hg]
        by_cases hb : s.end_time - s.now < 30
        · rw [if_pos hb, if_pos hb]
        · rw [if_neg hb, if_neg hb]
          exact ih md5 _ dur rest
      | raised dur' =>
        simp only [Scraper.run_loop]
      | interrupted posts reqs dur' =>
        simp only [Scraper.run_loop]
        rw [if_pos hg, if_pos hg]
        by_cases hb : s.end_time - s.now < 30
        · rw [if_pos hb, if_pos hb]
        · rw [if_neg hb, if_neg hb]
          exact ih md5 _ dur rest
    · simp [Scraper.run_loop, hg]

/-- An interrupt during a round ends the session after that round's buffer is
processed: rounds after it never run. -/
theorem run_loop_interrupted_trunc (pre : List Scraper.RoundEvent) :
    ∀ (md5 : String → String) (s : Scraper.SessionState) (posts : List Post)
      (reqs dur : Nat) (rest : List Scraper.RoundEvent),
      Scraper.run_loop md5 s (pre ++ Scraper.RoundEvent.interrupted posts reqs dur :: rest) =
      Scraper.run_loop md5 s (pre ++ [Scraper.RoundEvent.interrupted posts reqs dur]) := by
  induction pre with
  | nil =>
    intro md5 s posts reqs dur rest
    simp only [List.nil_append]
    by_cases hg : s.running = true ∧ s.now < s.end_time
    · simp only [Scraper.run_loop]
      rw [if_pos hg, if_pos hg]
      by_cases hb : s.end_time - s.now < 30
      · rw [if_pos hb, if_pos hb]
      · rw [if_neg hb, if_neg hb]
        have hstop : (Scraper.process_posts md5
            { s with now := s.now + dur, total_requests := s.total_requests + reqs,
                     running := false, rounds_started := s.rounds_started + 1 }
            posts).running = false :=
          (process_posts_control_fields posts md5 _).1
        rw [run_loop_stopped md5 _ rest hstop]
    · simp [Scraper.run_loop, hg]
  | cons e pre' ih =>
    intro md5 s posts reqs dur rest
    simp only [List.cons_append]
    by_cases hg : s.running = true ∧ s.now < s.end_time
    · cases e with
      | fetched posts' reqs' dur' =>
        simp only [Scraper.run_loop]
        rw [if_pos hg, if_pos hg]
        by_cases hb : s.end_time - s.now < 30
        · rw [if_pos hb, if_pos hb]
        · rw [if_neg hb, if_neg hb]
          exact ih md5 _ posts reqs dur rest
      | raised dur' =>
        simp only [Scraper.run_loop]
      | interrupted posts' reqs' dur' =>
        simp only [Scraper.run_loop]
        rw [if_pos hg, if_pos hg]
        by_cases hb : s.end_time - s.now < 30
        · rw [if_pos hb, if_pos hb]
        · rw [if_neg hb, if_neg hb]
          exact ih md5 _ posts reqs dur rest
    · simp [Scraper.run_loop, hg]

/-- C3 counterexample: a 10-minute session (deadline 600 s) whose first round
takes 571 s ends that round with 600 − 571 = 29 seconds remaining — strictly
below 30 — yet the scheduler still starts a second round (the round counter
reaches 2), because the 30-second check uses the remaining time captured at
the START of the round (600 s), not at its end. -/
theorem C3_counterexample :
    (Scraper.initState 0 10).end_time -
        (Scraper.run_loop (fun h => h) (Scraper.initState 0 10)
          [Scraper.RoundEvent.fetched [] 1 571]).now = 29 ∧
    (Scraper.run_loop (fun h => h) (Scraper.initState 0 10)
        [Scraper.RoundEvent.fetched [] 1 571,
         Scraper.RoundEvent.fetched [] 1 10]).rounds_started = 2 := by
  constructor
  · rfl
  · rfl

/-- C3 (amended): the early-exit check compares 30 seconds against the
remaining time captured at the START of the round.  (a) If a round starts
with fewer than 30 seconds remaining, the scheduler never starts a further
round (the round counter ends at exactly one more, however many events
follow).  (b) If a round ends with 31 seconds remaining and the stop flag is
still set, a further round does start — that round began with at least 31
seconds remaining, so the captured-value check passes. -/
theorem C3_round_boundary :
    (∀ (md5 : String → String) (s : Scraper.SessionState) (posts : List Post)
        (reqs dur : Nat) (es : List Scraper.RoundEvent),
        s.running = true → s.now < s.end_time → s.end_time - s.now < 30 →
        (Scraper.run_loop md5 s (Scraper.RoundEvent.fetched posts reqs dur :: es)).rounds_started =
          s.rounds_started + 1) ∧
    (∀ (md5 : String → String) (s : Scraper.SessionState) (posts : List Post)
        (reqs dur : Nat) (e : Scraper.RoundEvent) (es : List Scraper.RoundEvent),
        s.running = true → s.end_time = s.now + dur + 31 →
        s.rounds_started + 2 ≤
          (Scraper.run_loop md5 s
            (Scraper.RoundEvent.fetched posts reqs dur :: e :: es)).rounds_started) := by
  constructor
  · intro md5 s posts reqs dur es h₁ h₂ h₃
    have hg : s.running = true ∧ s.now < s.end_time := ⟨h₁, h₂⟩
    simp only [Scraper.run_loop]
    rw [if_pos hg, if_pos h₃]
    exact (process_posts_control_fields posts md5 _).2.2.2
  · intro md5 s posts reqs dur e es h₁ h₂
    have h₂' : s.now < s.end_time := by omega
    have hg : s.running = true ∧ s.now < s.end_time := ⟨h₁, h₂'⟩
    have h₃ : ¬ s.end_time - s.now < 30 := by omega
    simp only [Scraper.run_loop]
    rw [if_pos hg, if_neg h₃]
    have hf := process_posts_control_fields posts md5
      { s with now := s.now + dur, total_requests := s.total_requests + reqs,
               rounds_started := s.rounds_started + 1 }
    have hrun : (Scraper.process_posts md5
        { s with now := s.now + dur, total_requests := s.total_requests + reqs,
                 rounds_started := s.rounds_started + 1 } posts).running = true := by
      rw [hf.1]
      exact h₁
    have hlt : (Scraper.process_posts md5
        { s with now := s.now + dur, total_requests := s.total_requests + reqs,
                 rounds_started := s.rounds_started + 1 } posts).now <
        (Scraper.process_posts md5
        { s with now := s.now + dur, total_requests := s.total_requests + reqs,
                 rounds_started := s.rounds_started + 1 } posts).end_time := by
      rw [hf.2.1, hf.2.2.1]
      show s.now + dur < s.end_time
      omega
    have hstep := run_loop_step_rounds md5 _ e es hrun hlt
    rw [hf.2.2.2] at hstep
    exact hstep

/-- C3 witness: with 20 seconds remaining at round start no further round
runs; with a round ending 31 seconds before a 600-second deadline a second
round does start. -/
theorem C3_witness :
    (Scraper.run_loop (fun h => h) { Scraper.initState 0 10 with now := 580 }
        [Scraper.RoundEvent.fetched [] 1 5, Scraper.RoundEvent.fetched [] 1 5]).rounds_started =
      ({ Scraper.initState 0 10 with now := 580 } : Scraper.SessionState).rounds_started + 1 ∧
    (Scraper.initState 0 10).rounds_started + 2 ≤
      (Scraper.run_loop (fun h => h) (Scraper.initState 0 10)
        [Scraper.RoundEvent.fetched [] 1 569,
         Scraper.RoundEvent.fetched [] 1 1]).rounds_started :=
  ⟨C3_round_boundary.1 (fun h => h) { Scraper.initState 0 10 with now := 580 } [] 1 5
      [Scraper.RoundEvent.fetched [] 1 5] (by rfl) (by decide) (by decide),
   C3_round_boundary.2 (fun h => h) (Scraper.initState 0 10) [] 1 569
      (Scraper.RoundEvent.fetched [] 1 1) [] (by rfl) (by decide)⟩

/-- C8 counterexample: a session whose single round returns no posts exits on
normal deadline expiry, and its finalization generates no report files and
performs no notification handoff (`artifacts_generated = false`): report
generation does not execute on every exit path. -/
theorem C8_counterexample :
    (Scraper.run_session (fun h => h) (Scraper.initState 0 10)
        [Scraper.RoundEvent.fetched [] 1 601]).map
      (fun report => report.artifacts_generated) = [false] := by
  rfl

/-- C8 (amended): finalization runs exactly once after the scheduling loop
exits, on every exit path — normal deadline expiry, cooperative interrupt,
or an exception raised during a round — and it reports exactly the records
and counters accumulated at loop exit; events after an exception or an
interrupt contribute nothing.  Within that single finalization, report-file
generation and the notification handoff happen only when at least one record
was accepted. -/
theorem C8_finalize_once :
    ∀ (md5 : String → String) (s : Scraper.SessionState),
      (∀ events : List Scraper.RoundEvent,
        (Scraper.run_session md5 s events).length = 1) ∧
      (∀ events : List Scraper.RoundEvent,
        (Scraper.run_session md5 s events).head? =
          some (Scraper.finalize_scraping (Scraper.run_loop md5 s events)) ∧
        (Scraper.finalize_scraping (Scraper.run_loop md5 s events)).posts =
          (Scraper.run_loop md5 s events).scraped_posts ∧
        (Scraper.finalize_scraping (Scraper.run_loop md5 s events)).artifacts_generated =
          !(Scraper.run_loop md5 s events).scraped_posts.isEmpty) ∧
      (∀ (pre : List Scraper.RoundEvent) (dur : Nat) (rest : List Scraper.RoundEvent),
        Scraper.run_session md5 s (pre ++ Scraper.RoundEvent.raised dur :: rest) =
          Scraper.run_session md5 s (pre ++ [Scraper.RoundEvent.raised dur])) ∧
      (∀ (pre : List Scraper.RoundEvent) (posts : List Post) (reqs dur : Nat)
          (rest : List Scraper.RoundEvent),
        Scraper.run_session md5 s
            (pre ++ Scraper.RoundEvent.interrupted posts reqs dur :: rest) =
          Scraper.run_session md5 s
            (pre ++ [Scraper.RoundEvent.interrupted posts reqs dur])) := by
  intro md5 s
  refine ⟨fun events => rfl, fun events => ⟨rfl, rfl, rfl⟩, ?_, ?_⟩
  · intro pre dur rest
    unfold Scraper.run_session
    rw [run_loop_raised_trunc pre md5 s dur rest]
  · intro pre posts reqs dur rest
    unfold Scraper.run_session
    rw [run_loop_interrupted_trunc pre md5 s posts reqs dur rest]

/-- C8 witness: the truncation equalities applied at a concrete session whose
second round raises, with further events pending. -/
theorem C8_witness :
    Scraper.run_session (fun h => h) (Scraper.initState 0 10)
        ([Scraper.RoundEvent.fetched [] 1 60] ++ Scraper.RoundEvent.raised 5 ::
          [Scraper.RoundEvent.fetched [] 1 60]) =
      Scraper.run_session (fun h => h) (Scraper.initState 0 10)
        ([Scraper.RoundEvent.fetched [] 1 60] ++ [Scraper.RoundEvent.raised 5]) :=
  (C8_finalize_once (fun h => h) (Scraper.initState 0 10)).2.2.1
    [Scraper.RoundEvent.fetched [] 1 60] 5 [Scraper.RoundEvent.fetched [] 1 60]
